import Mathlib

/-!
Verification of the moon-phase page (`src/script.js`).

The phase model is embedded over the real numbers: an instant is the value
of `date.getTime()` (milliseconds since the Unix epoch) as a real number,
and the arithmetic of `frac`, `toJulian`, `moonPhase` and `phaseName` is
transcribed verbatim.  Calendar arithmetic (the `new Date(y, m, d)`
constructor and the `getFullYear`/`getMonth`/`getDate` accessors used by
`render7`) is embedded through the standard civil-calendar day-count
conversions, with the local time zone taken as UTC (the spec places
time-zone-correct day boundaries out of scope).
-/

namespace Moon

/-- JS: `const TAU = Math.PI * 2`. -/
noncomputable def TAU : ℝ := Real.pi * 2

/-- JS: `const frac = x => x - Math.floor(x)`. -/
noncomputable def frac (x : ℝ) : ℝ := x - ⌊x⌋

/-- JS: `toJulian(date) = date.getTime()/86400000 + 2440587.5`, milliseconds
since the Unix epoch to a Julian Day number. -/
noncomputable def toJulian (t : ℝ) : ℝ := t / 86400000 + 2440587.5

/-- JS: `const synodic = 29.530588853` (days), from `moonPhase`. -/
noncomputable def synodic : ℝ := 29.530588853

/-- The record returned by `moonPhase`: `{phase, ageDays, illum}`. -/
structure PhaseReading where
  phase : ℝ
  ageDays : ℝ
  illum : ℝ

/-- JS: `function moonPhase(date)`, with the instant given as milliseconds
since the Unix epoch. -/
noncomputable def moonPhase (t : ℝ) : PhaseReading :=
  let jd := toJulian t
  let k := (jd - 2451550.1) / synodic
  let p := frac k
  let age := p * synodic
  let illum := 0.5 * (1 - Real.cos (TAU * p))
  ⟨p, age, illum⟩

/-- JS: `function phaseName(p)`, polymorphic over the ordered field carrying
the fraction (used at `ℚ` for decidable evaluation and at `ℝ` for the
phase model; `0.03 = 3/100` and so on, exactly). -/
def phaseName {α : Type} [LinearOrderedField α] (p : α) : String :=
  if p < 3/100 ∨ p > 97/100 then "New Moon"
  else if p < 22/100 then "Waxing Crescent"
  else if p < 28/100 then "First Quarter"
  else if p < 47/100 then "Waxing Gibbous"
  else if p < 53/100 then "Full Moon"
  else if p < 72/100 then "Waning Gibbous"
  else if p < 78/100 then "Last Quarter"
  else "Waning Crescent"

/-- The presentation state the toggle handler reads and writes: the
forecast panel `style.display`, the button `textContent`, and a count
of `render7()` invocations (the handler calls `render7` on the transition
to visible). -/
structure UIState where
  display : String
  btnText : String
  renderCount : ℕ

/-- JS: the `toggleBtn` click handler:
`const show = sevenPanel.style.display === "none"; ...` (single quotes in the source). -/
def toggleClick (s : UIState) : UIState :=
  let sh := s.display = "none"
  { display := if sh then "block" else "none"
    btnText := if sh then "▼ Hide Next 7 Days" else "▶ Next 7 Days"
    renderCount := if sh then s.renderCount + 1 else s.renderCount }

/-- Modelled from the spec: the initial markup (the HTML of the page is not
under `src/`) starts with the forecast panel hidden (spec §4.3: initial
state is Collapsed) and the toggle showing the collapsed affordance. -/
def initState : UIState := ⟨"none", "▶ Next 7 Days", 0⟩

/-- Presentation states reachable from the initial state by clicking the
toggle. -/
inductive Reachable : UIState → Prop
  | init : Reachable initState
  | step (s : UIState) : Reachable s → Reachable (toggleClick s)

/-- Day count from the Unix epoch of the civil date `(y, mo, dom)` with
`mo` the 0-based month of JS `Date`: the normalizing semantics of
`new Date(y, mo, dom)` at local midnight (the local zone taken as UTC),
for any integer `dom` — an out-of-range day-of-month wraps into adjacent
months, which is exactly the local calendar-day arithmetic `render7`
relies on.  Standard civil-calendar conversion with floor division. -/
def civilToDays (y mo dom : ℤ) : ℤ :=
  let m := mo + 1
  let yAdj := y - (if m ≤ 2 then 1 else 0)
  let era := Int.fdiv yAdj 400
  let yoe := yAdj - era * 400
  let mp := (m + 9) % 12
  let doy := Int.fdiv (153 * mp + 2) 5 + dom - 1
  let doe := yoe * 365 + Int.fdiv yoe 4 - Int.fdiv yoe 100 + doy
  era * 146097 + doe - 719468

/-- Inverse civil-calendar conversion: the `(getFullYear, getMonth,
getDate)` components (month 0-based) of the local calendar day `z` days
after the Unix epoch. -/
def civilFromDays (z : ℤ) : ℤ × ℤ × ℤ :=
  let zd := z + 719468
  let era := Int.fdiv zd 146097
  let doe := zd - era * 146097
  let yoe := Int.fdiv
    (doe - Int.fdiv doe 1460 + Int.fdiv doe 36524 - Int.fdiv doe 146096) 365
  let y := yoe + era * 400
  let doy := doe - (365 * yoe + Int.fdiv yoe 4 - Int.fdiv yoe 100)
  let mp := Int.fdiv (5 * doy + 2) 153
  let dom := doy - Int.fdiv (153 * mp + 2) 5 + 1
  let m := mp + (if mp < 10 then 3 else -9)
  (y + (if m ≤ 2 then 1 else 0), m - 1, dom)

/-- One forecast card built inside the `render7` loop: its calendar
day (as a day count), and the `phase`, `phaseName` and `illum` the card
displays. -/
structure Entry where
  dateDays : ℤ
  phase : ℝ
  name : String
  illum : ℝ

/-- The card for the calendar day `dd`: `moonPhase(d)` is evaluated at
the local-midnight instant `dd × 86400000` ms of that day. -/
noncomputable def mkEntry (dd : ℤ) : Entry :=
  let r := moonPhase ((dd : ℝ) * 86400000)
  ⟨dd, r.phase, phaseName r.phase, r.illum⟩

/-- JS: `function render7()` given the base date components
`(base.getFullYear(), base.getMonth(), base.getDate())`: for `i = 1..7`
one card for `new Date(y, mo, d + i)`. -/
noncomputable def render7 (y mo d : ℤ) : List Entry :=
  (List.range 7).map fun (i : ℕ) => mkEntry (civilToDays y mo (d + ((i : ℤ) + 1)))

/-- The local calendar day holding the instant `now` (ms since epoch). -/
def localDay (now : ℚ) : ℤ := ⌊now / 86400000⌋

/-- Here `render7` as the page invokes it: `const base = new Date()`, the base
components read from the current instant. -/
noncomputable def render7OfNow (now : ℚ) : List Entry :=
  let c := civilFromDays (localDay now)
  render7 c.1 c.2.1 c.2.2

/-- Rendering of an interpolated number into the SVG markup (JS template
interpolation of a number; the geometry values are rational here). -/
def numStr (q : ℚ) : String := toString q

/-- JS: `function moonSVG(p, size=160)`.  The call-unique identifier
`const id = "m" + Math.random().toString(36).slice(2)` (single quotes in the source) is modelled by
passing the random suffix `rand` as an explicit argument; everything else
is the template string of the source, transcribed with its interpolated
geometry (`r`, `x`, `absx`, `dir`, `scaleX`, `shift`). -/
def moonSVG (p size : ℚ) (rand : String) : String :=
  let r := size / 2
  let x := 2 * p - 1
  let absx := |x|
  let dir : ℚ := if x ≥ 0 then 1 else -1
  let scaleX := 1 - absx
  let shift := dir * r * 0.65
  let id := "m" ++ rand
  "\n  <svg viewBox=\"0 0 " ++ numStr size ++ " " ++ numStr size ++ "\" width=\""
    ++ numStr size ++ "\" height=\"" ++ numStr size
    ++ "\" class=\"moonSVG\" aria-label=\"Moon icon\">\n    <defs>\n      <radialGradient id=\"g-"
  ++ id ++
  "\" cx=\"35%\" cy=\"30%\" r=\"75%\">\n        <stop offset=\"0%\" stop-color=\"#f8fbff\"/>\n        <stop offset=\"60%\" stop-color=\"#e6ebff\"/>\n        <stop offset=\"100%\" stop-color=\"#c7d2ff\"/>\n      </radialGradient>\n      <filter id=\"shadow-"
  ++ id ++
  "\" x=\"-50%\" y=\"-50%\" width=\"200%\" height=\"200%\">\n        <feDropShadow dx=\"0\" dy=\"2\" stdDeviation=\"4\" flood-color=\"#000\" flood-opacity=\"0.6\"/>\n      </filter>\n      <clipPath id=\"clip-"
  ++ id ++
  "\">\n        <circle cx=\"" ++ numStr r ++ "\" cy=\"" ++ numStr r ++ "\" r=\""
    ++ numStr r ++ "\" />\n      </clipPath>\n      <mask id=\"mask-"
  ++ id ++
  "\">\n        <rect width=\"100%\" height=\"100%\" fill=\"black\"/>\n        <g transform=\"translate("
    ++ numStr (r + shift) ++ ", " ++ numStr r ++ ") scale(" ++ numStr scaleX
    ++ ", 1)\">\n          <circle cx=\"0\" cy=\"0\" r=\"" ++ numStr r
    ++ "\" fill=\"white\" />\n        </g>\n      </mask>\n    </defs>\n    <circle cx=\""
    ++ numStr r ++ "\" cy=\"" ++ numStr r ++ "\" r=\"" ++ numStr r
    ++ "\" fill=\"#0a0f22\" stroke=\"#1c2752\" stroke-width=\"2\" filter=\"url(#shadow-"
  ++ id ++
  ")\"/>\n    <g clip-path=\"url(#clip-"
  ++ id ++
  ")\" mask=\"url(#mask-"
  ++ id ++
  ")\">\n      <circle cx=\"" ++ numStr r ++ "\" cy=\"" ++ numStr r ++ "\" r=\""
    ++ numStr r ++ "\" fill=\"url(#g-"
  ++ id ++
  ")\"/>\n    </g>\n    <circle cx=\"" ++ numStr r ++ "\" cy=\"" ++ numStr r
    ++ "\" r=\"" ++ numStr (r - 1.5)
    ++ "\" fill=\"none\" stroke=\"rgba(255,255,255,.06)\" stroke-width=\"3\"/>\n  </svg>"

/-- The identifier-free decomposition of the `moonSVG` output: the nine
maximal chunks of the markup lying between the eight occurrences of the
call-unique identifier.  A pure function of `(p, size)` only. -/
def svgSegments (p size : ℚ) : List String :=
  let r := size / 2
  let x := 2 * p - 1
  let absx := |x|
  let dir : ℚ := if x ≥ 0 then 1 else -1
  let scaleX := 1 - absx
  let shift := dir * r * 0.65
  [ "\n  <svg viewBox=\"0 0 " ++ numStr size ++ " " ++ numStr size ++ "\" width=\""
      ++ numStr size ++ "\" height=\"" ++ numStr size
      ++ "\" class=\"moonSVG\" aria-label=\"Moon icon\">\n    <defs>\n      <radialGradient id=\"g-",
    "\" cx=\"35%\" cy=\"30%\" r=\"75%\">\n        <stop offset=\"0%\" stop-color=\"#f8fbff\"/>\n        <stop offset=\"60%\" stop-color=\"#e6ebff\"/>\n        <stop offset=\"100%\" stop-color=\"#c7d2ff\"/>\n      </radialGradient>\n      <filter id=\"shadow-",
    "\" x=\"-50%\" y=\"-50%\" width=\"200%\" height=\"200%\">\n        <feDropShadow dx=\"0\" dy=\"2\" stdDeviation=\"4\" flood-color=\"#000\" flood-opacity=\"0.6\"/>\n      </filter>\n      <clipPath id=\"clip-",
    "\">\n        <circle cx=\"" ++ numStr r ++ "\" cy=\"" ++ numStr r ++ "\" r=\""
      ++ numStr r ++ "\" />\n      </clipPath>\n      <mask id=\"mask-",
    "\">\n        <rect width=\"100%\" height=\"100%\" fill=\"black\"/>\n        <g transform=\"translate("
      ++ numStr (r + shift) ++ ", " ++ numStr r ++ ") scale(" ++ numStr scaleX
      ++ ", 1)\">\n          <circle cx=\"0\" cy=\"0\" r=\"" ++ numStr r
      ++ "\" fill=\"white\" />\n        </g>\n      </mask>\n    </defs>\n    <circle cx=\""
      ++ numStr r ++ "\" cy=\"" ++ numStr r ++ "\" r=\"" ++ numStr r
      ++ "\" fill=\"#0a0f22\" stroke=\"#1c2752\" stroke-width=\"2\" filter=\"url(#shadow-",
    ")\"/>\n    <g clip-path=\"url(#clip-",
    ")\" mask=\"url(#mask-",
    ")\">\n      <circle cx=\"" ++ numStr r ++ "\" cy=\"" ++ numStr r ++ "\" r=\""
      ++ numStr r ++ "\" fill=\"url(#g-",
    ")\"/>\n    </g>\n    <circle cx=\"" ++ numStr r ++ "\" cy=\"" ++ numStr r
      ++ "\" r=\"" ++ numStr (r - 1.5)
      ++ "\" fill=\"none\" stroke=\"rgba(255,255,255,.06)\" stroke-width=\"3\"/>\n  </svg>" ]

/-- Concatenation of a list of chunks with a separator between each two
consecutive chunks. -/
def interleave (sep : String) : List String → String
  | [] => ""
  | [s] => s
  | s :: rest => s ++ sep ++ interleave sep rest

theorem moonPhase_phase_def (t : ℝ) :
    (moonPhase t).phase = frac ((toJulian t - 2451550.1) / synodic) := rfl

theorem moonPhase_ageDays_def (t : ℝ) :
    (moonPhase t).ageDays = (moonPhase t).phase * synodic := rfl

theorem moonPhase_illum_def (t : ℝ) :
    (moonPhase t).illum = 0.5 * (1 - Real.cos (TAU * (moonPhase t).phase)) := rfl

theorem frac_eq_fract (x : ℝ) : frac x = Int.fract x := rfl

theorem synodic_pos : (0:ℝ) < synodic := by norm_num [synodic]

/-- At `t = 947168640000` ms the Julian Day is exactly `2451550.1`
(the reference new moon), so the phase fraction is exactly `0`. -/
theorem phase_at_ref : (moonPhase 947168640000).phase = 0 := by
  rw [moonPhase_phase_def, frac_eq_fract]
  have h : (toJulian 947168640000 - 2451550.1) / synodic = 0 := by
    rw [toJulian]; norm_num
  rw [h, Int.fract_zero]

/-- Half a synodic month after the reference new moon the phase fraction
is exactly `1/2`. -/
theorem phase_at_half :
    (moonPhase (947168640000 + synodic * 43200000)).phase = 1/2 := by
  rw [moonPhase_phase_def, frac_eq_fract]
  have hs : (synodic : ℝ) ≠ 0 := ne_of_gt synodic_pos
  have harg : (947168640000 + synodic * 43200000) / 86400000 + 2440587.5 - 2451550.1
      = synodic / 2 := by
    field_simp
    ring
  have h : (toJulian (947168640000 + synodic * 43200000) - 2451550.1) / synodic
      = 1/2 := by
    rw [toJulian, harg]
    field_simp
    ring
  rw [h]
  exact Int.fract_eq_self.mpr ⟨by norm_num, by norm_num⟩

/-- C2: For every instant `t` (negative cycle counts included),
`moonPhase(t).phase` lies in `[0,1)`: the fractional part wraps negative
inputs forward rather than truncating toward zero. -/
theorem moonPhase_phase_mem_Ico (t : ℝ) :
    0 ≤ (moonPhase t).phase ∧ (moonPhase t).phase < 1 := by
  rw [moonPhase_phase_def, frac_eq_fract]
  exact ⟨Int.fract_nonneg _, Int.fract_lt_one _⟩

/-- C9: For every instant `t`, `moonPhase(t).ageDays` equals
`phase × 29.530588853` and lies in `[0, synodic)`. -/
theorem moonPhase_ageDays_range (t : ℝ) :
    (moonPhase t).ageDays = (moonPhase t).phase * 29.530588853 ∧
      0 ≤ (moonPhase t).ageDays ∧ (moonPhase t).ageDays < 29.530588853 := by
  obtain ⟨h0, h1⟩ := moonPhase_phase_mem_Ico t
  have hsyn : (synodic : ℝ) = 29.530588853 := rfl
  refine ⟨by rw [moonPhase_ageDays_def, hsyn], ?_, ?_⟩
  · rw [moonPhase_ageDays_def]
    exact mul_nonneg h0 (le_of_lt synodic_pos)
  · calc (moonPhase t).ageDays = (moonPhase t).phase * synodic := moonPhase_ageDays_def t
      _ < 1 * synodic := by
          exact mul_lt_mul_of_pos_right h1 synodic_pos
      _ = 29.530588853 := by rw [one_mul, hsyn]

/-- C3: For every instant `t`, `moonPhase(t).illum` equals
`0.5 × (1 − cos(2π × phase))`, lies in `[0,1]`, equals `0` when the phase
fraction is `0` and `1` when it is `0.5`. -/
theorem moonPhase_illum_cosine_curve (t : ℝ) :
    (moonPhase t).illum = 0.5 * (1 - Real.cos (TAU * (moonPhase t).phase)) ∧
    0 ≤ (moonPhase t).illum ∧ (moonPhase t).illum ≤ 1 ∧
    ((moonPhase t).phase = 0 → (moonPhase t).illum = 0) ∧
    ((moonPhase t).phase = 1/2 → (moonPhase t).illum = 1) := by
  refine ⟨moonPhase_illum_def t, ?_, ?_, ?_, ?_⟩
  · rw [moonPhase_illum_def]
    have h := Real.cos_le_one (TAU * (moonPhase t).phase)
    linarith
  · rw [moonPhase_illum_def]
    have h := Real.neg_one_le_cos (TAU * (moonPhase t).phase)
    linarith
  · intro h
    rw [moonPhase_illum_def, h, mul_zero, Real.cos_zero]
    norm_num
  · intro h
    rw [moonPhase_illum_def, h]
    rw [show TAU * (1/2 : ℝ) = Real.pi by rw [TAU]; ring, Real.cos_pi]
    norm_num

/-- C4: Cycle periodicity: advancing any instant by one synodic month
(29.530588853 days, in milliseconds) changes the phase fraction by less
than any positive `ε` (in fact it leaves it exactly equal). -/
theorem moonPhase_periodic_synodic (t ε : ℝ) (hε : 0 < ε) :
    |(moonPhase (t + synodic * 86400000)).phase - (moonPhase t).phase| < ε := by
  have hs : (synodic : ℝ) ≠ 0 := ne_of_gt synodic_pos
  have key : (moonPhase (t + synodic * 86400000)).phase = (moonPhase t).phase := by
    rw [moonPhase_phase_def, moonPhase_phase_def, frac_eq_fract, frac_eq_fract]
    rw [show (toJulian (t + synodic * 86400000) - 2451550.1) / synodic
        = (toJulian t - 2451550.1) / synodic + 1 by
      rw [toJulian, toJulian]; field_simp; ring]
    exact Int.fract_add_one _
  rw [key, sub_self, abs_zero]
  exact hε

theorem moonPhase_periodic_synodic_witness :
    |(moonPhase (0 + synodic * 86400000)).phase - (moonPhase 0).phase| < 1 :=
  moonPhase_periodic_synodic 0 1 (by norm_num)

/-- C5: Known fixed point: at the instant whose Julian Day is
`2451550.1` (947168640000 ms after the Unix epoch, i.e. 2000-01-06
18:14:24 UTC), the phase fraction is `0` and its name is "New Moon". -/
theorem moonPhase_reference_new_moon :
    (moonPhase 947168640000).phase = 0 ∧
      phaseName (moonPhase 947168640000).phase = "New Moon" := by
  refine ⟨phase_at_ref, ?_⟩
  rw [phase_at_ref]
  norm_num [phaseName]

set_option maxHeartbeats 2000000 in
/-- C1: `phaseName` is a total function, and on `[0,1]` the eight
named buckets partition the interval with no gaps and exactly the
tie-breaks of the table: each name is returned precisely on its bucket,
and the buckets are pairwise disjoint half-open intervals covering
`[0,1]`. -/
theorem phaseName_partitions_unit_interval (p : ℚ) (h0 : 0 ≤ p) (h1 : p ≤ 1) :
    (phaseName p = "New Moon" ↔ (p < 3/100 ∨ 97/100 < p)) ∧
    (phaseName p = "Waxing Crescent" ↔ (3/100 ≤ p ∧ p < 22/100)) ∧
    (phaseName p = "First Quarter" ↔ (22/100 ≤ p ∧ p < 28/100)) ∧
    (phaseName p = "Waxing Gibbous" ↔ (28/100 ≤ p ∧ p < 47/100)) ∧
    (phaseName p = "Full Moon" ↔ (47/100 ≤ p ∧ p < 53/100)) ∧
    (phaseName p = "Waning Gibbous" ↔ (53/100 ≤ p ∧ p < 72/100)) ∧
    (phaseName p = "Last Quarter" ↔ (72/100 ≤ p ∧ p < 78/100)) ∧
    (phaseName p = "Waning Crescent" ↔ (78/100 ≤ p ∧ p ≤ 97/100)) := by
  unfold phaseName
  split_ifs with hA hB hC hD hE hF hG <;>
    push_neg at * <;>
      refine ⟨?_, ?_, ?_, ?_, ?_, ?_, ?_, ?_⟩ <;> simp <;> intros
  all_goals
    first
      | linarith
      | exact hA
      | (constructor <;> linarith)
      | (rcases hA with h | h <;> linarith)

theorem phaseName_partition_witness : phaseName ((1:ℚ)/2) = "Full Moon" :=
  ((phaseName_partitions_unit_interval (1/2) (by norm_num)
    (by norm_num)).2.2.2.2.1).mpr (by norm_num)

/-- C7: From any reachable presentation state, clicking the toggle
twice restores the visibility of the forecast panel and the toggle
affordance text. -/
theorem toggle_twice_restores (s : UIState) (h : Reachable s) :
    (toggleClick (toggleClick s)).display = s.display ∧
      (toggleClick (toggleClick s)).btnText = s.btnText := by
  have inv : s.display = "none" ∧ s.btnText = "▶ Next 7 Days" ∨
      s.display = "block" ∧ s.btnText = "▼ Hide Next 7 Days" := by
    induction h with
    | init => exact Or.inl ⟨rfl, rfl⟩
    | step s' _ ih =>
        rcases ih with ⟨hd, _⟩ | ⟨hd, _⟩
        · exact Or.inr ⟨by simp [toggleClick, hd], by simp [toggleClick, hd]⟩
        · refine Or.inl ⟨?_, ?_⟩ <;> simp [toggleClick, hd]
  rcases inv with ⟨hd, hb⟩ | ⟨hd, hb⟩ <;>
    refine ⟨?_, ?_⟩ <;> simp [toggleClick, hd, hb]

theorem toggle_twice_restores_witness :
    (toggleClick (toggleClick initState)).display = initState.display ∧
      (toggleClick (toggleClick initState)).btnText = initState.btnText :=
  toggle_twice_restores initState Reachable.init

/-- The day-of-month argument of the civil conversion is linear: adding
`n` to it advances the resulting day count by exactly `n` calendar
days. -/
theorem civilToDays_add (y mo dom n : ℤ) :
    civilToDays y mo (dom + n) = civilToDays y mo dom + n := by
  simp only [civilToDays]
  ring

/-- C6: One invocation of `render7` produces exactly 7 cards, and for
`i = 1..7` the `i`-th card carries the calendar day `base date + i days`
under local calendar-day increment semantics. -/
theorem render7_seven_calendar_entries (y mo d : ℤ) :
    (render7 y mo d).length = 7 ∧
      (render7 y mo d).map Entry.dateDays =
        [civilToDays y mo d + 1, civilToDays y mo d + 2, civilToDays y mo d + 3,
         civilToDays y mo d + 4, civilToDays y mo d + 5, civilToDays y mo d + 6,
         civilToDays y mo d + 7] := by
  constructor
  · unfold render7
    rw [List.length_map, List.length_range]
  · have hr : List.range 7 = [0, 1, 2, 3, 4, 5, 6] := rfl
    simp only [render7, hr, List.map_cons, List.map_nil, mkEntry]
    push_cast
    simp [civilToDays_add]

/-- C10: Each forecast card is computed from the local-midnight
instant of its target calendar day, so `render7` is a function of the
base calendar day only: two invocations at instants of the same local
calendar day produce identical forecasts. -/
theorem render7_depends_only_on_local_day (n₁ n₂ : ℚ)
    (h : localDay n₁ = localDay n₂) :
    render7OfNow n₁ = render7OfNow n₂ ∧
      ∀ e ∈ render7OfNow n₁,
        e.phase = (moonPhase ((e.dateDays : ℝ) * 86400000)).phase := by
  constructor
  · unfold render7OfNow
    rw [h]
  · unfold render7OfNow render7
    intro e he
    simp only [List.mem_map] at he
    obtain ⟨i, _, rfl⟩ := he
    rfl

theorem render7_local_day_witness : render7OfNow 0 = render7OfNow 43200000 :=
  (render7_depends_only_on_local_day 0 43200000 (by norm_num [localDay])).1

/-- The output of `moonSVG` is the identifier-free chunk list interleaved
with the identifier of the call. -/
theorem moonSVG_eq_interleave (p size : ℚ) (rand : String) :
    moonSVG p size rand = interleave ("m" ++ rand) (svgSegments p size) := by
  simp only [moonSVG, svgSegments, interleave]
  simp [String.append_assoc]

/-- C8: Icon construction is a pure function of `(phaseFraction, size)`
modulo the call-unique identifier: any two calls of `moonSVG` with the
same `p` and `size` yield the same identifier-free chunk decomposition
(`svgSegments p size`, which does not depend on the identifier), each
output being those chunks interleaved with its own fresh identifier. -/
theorem moonSVG_pure_modulo_id (p size : ℚ) (rand₁ rand₂ : String) :
    moonSVG p size rand₁ = interleave ("m" ++ rand₁) (svgSegments p size) ∧
      moonSVG p size rand₂ = interleave ("m" ++ rand₂) (svgSegments p size) :=
  ⟨moonSVG_eq_interleave p size rand₁, moonSVG_eq_interleave p size rand₂⟩

end Moon
